import Mathlib

/-!
RunFlash backend: shallow embedding and verification.

Embedding of the RunFlash flash-sales backend (`main.py`, `schemas.py`):
schema validation models, the persistence accessor, and the HTTP route
handlers, with theorems settling the claims of the specification.

Conventions of the embedding:
* `datetime` values are UTC timestamps modelled as `Int`.
* JSON numbers (`float` prices) are modelled as `Rat`; `int` as `Int`.
* Mongo documents are structures whose fields are all `Option`-valued
  (a raw document may miss any field); `_id` is a `Nat` object id.
* Fallible calls return `Except String α` (the `String` is the exception
  message); the HTTP framework converts uncaught exceptions to 500.
-/

namespace RunFlash

/-- Model of pydantic `EmailStr` validation: a well-formed address has
exactly one `@` separating a non-empty local part from a non-empty domain
that contains an interior dot, and no spaces. -/
def isValidEmail (s : String) : Bool :=
  match s.data.splitOn '@' with
  | [loc, domain] =>
      !loc.isEmpty && !domain.isEmpty &&
      domain.contains '.' &&
      domain.head? != some '.' && domain.getLast? != some '.' &&
      !s.data.contains ' '
  | _ => false

/-! ## Schema layer (`schemas.py`) -/

/-- Record `schemas.Subscriber`: the validated record persisted by `/api/subscribe`. -/
structure Subscriber where
  email : String
  first_name : Option String := none
  sale_event_id : Option String := none
  source : Option String := some "landing"
  accepted_marketing : Bool := true
deriving DecidableEq

/-- Record `schemas.SaleProduct` (validated form). -/
structure SaleProduct where
  sale_event_id : String
  brand_id : Option String := none
  title : String
  description : Option String := none
  images : List String := []
  price_original : Rat
  price_sale : Rat
  stock : Int
  sku : Option String := none
deriving DecidableEq

/-- Raw (pre-validation) field values for a `SaleProduct`. -/
structure SaleProductInput where
  sale_event_id : String
  brand_id : Option String := none
  title : String
  description : Option String := none
  images : List String := []
  price_original : Rat
  price_sale : Rat
  stock : Int
  sku : Option String := none
deriving DecidableEq

/-- Pydantic validation of `SaleProduct`: the declared bounds are
`price_original ≥ 0`, `price_sale ≥ 0`, `stock ≥ 0`
(`Field(..., ge=0)` on each). -/
def validateSaleProduct (i : SaleProductInput) : Option SaleProduct :=
  if 0 ≤ i.price_original ∧ 0 ≤ i.price_sale ∧ 0 ≤ i.stock then
    some { sale_event_id := i.sale_event_id, brand_id := i.brand_id,
           title := i.title, description := i.description, images := i.images,
           price_original := i.price_original, price_sale := i.price_sale,
           stock := i.stock, sku := i.sku }
  else none

/-- Record `schemas.Reservation` (validated form). -/
structure Reservation where
  sale_event_id : String
  product_id : String
  email : String
  quantity : Int := 1
  status : String := "held"
deriving DecidableEq

/-- Raw (pre-validation) field values for a `Reservation`. -/
structure ReservationInput where
  sale_event_id : String
  product_id : String
  email : String
  quantity : Int := 1
  status : String := "held"
deriving DecidableEq

/-- Pydantic validation of `Reservation`: `email` is an `EmailStr` and
`quantity` carries `ge=1, le=10`. -/
def validateReservation (i : ReservationInput) : Option Reservation :=
  if isValidEmail i.email ∧ 1 ≤ i.quantity ∧ i.quantity ≤ 10 then
    some { sale_event_id := i.sale_event_id, product_id := i.product_id,
           email := i.email, quantity := i.quantity, status := i.status }
  else none

/-! ## Stored documents -/

/-- A raw document of the `saleevent` collection: every field may be
missing, as the route handlers assume (`d.get(...)` with defaults). -/
structure SaleEventDoc where
  _id : Nat
  title : Option String := none
  subtitle : Option String := none
  banner_url : Option String := none
  start_at : Option Int := none
  end_at : Option Int := none
  status : Option String := none
  categories : Option (List String) := none
deriving DecidableEq

/-- A raw document of the `saleproduct` collection. -/
structure SaleProductDoc where
  _id : Nat
  sale_event_id : Option String := none
  title : Option String := none
  price_original : Option Rat := none
  price_sale : Option Rat := none
  images : Option (List String) := none
  stock : Option Int := none
deriving DecidableEq

/-! ## Persistence accessor (`database.py`, not among the sources) -/

/-- The database contents: one list per collection the routes touch. -/
structure DB where
  saleevent : List SaleEventDoc := []
  saleproduct : List SaleProductDoc := []
  subscriber : List Subscriber := []
  next_id : Nat := 0
deriving DecidableEq

def hexDigit (n : Nat) : Char :=
  if n < 10 then Char.ofNat (48 + n) else Char.ofNat (87 + n)

/-- Modelled from the spec: `database.py` is not among the sources; per the
spec its insert "returns the generated identifier". The identifier is the
stringified Mongo object id: 24 hexadecimal characters. -/
def objectIdString (n : Nat) : String :=
  String.mk ((List.range 24).map (fun i => hexDigit (n / 16 ^ (23 - i) % 16)))

/-- Modelled from the spec: `database.create_document` "accepts a collection
name and a validated record; returns the generated identifier; signals
failure if the underlying connection is unavailable". The only collection
the routes write is `subscriber`, so the model is typed to it. -/
def create_document (db? : Option DB) (sub : Subscriber) :
    Except String (String × DB) :=
  match db? with
  | none => Except.error "Database not available"
  | some db =>
      Except.ok (objectIdString db.next_id,
        { db with subscriber := db.subscriber ++ [sub],
                  next_id := db.next_id + 1 })

/-- Modelled from the spec: `database.get_documents` "accepts a collection
name, a filter expression, and a result-count cap; returns a
lazily-materialized list of raw documents", and signals failure when the
connection handle is absent. `getColl` selects the named collection and
`pred` is the meaning of the Mongo filter on one document. -/
def get_documents {α : Type} (db? : Option DB) (getColl : DB → List α)
    (pred : α → Bool) (limit : Nat) : Except String (List α) :=
  match db? with
  | none => Except.error "Database not available"
  | some db => Except.ok (((getColl db).filter pred).take limit)

/-! ## HTTP layer (`main.py`) -/

/-- Modelled from the spec: the HTTP framework turns an exception that
escapes a route handler into a server-error (500) response rather than
crashing the process. -/
inductive HttpResult (α : Type) where
  | ok (body : α)
  | error (status : Nat) (detail : String)
deriving DecidableEq

/-- Run a route body under the framework: an uncaught exception becomes a
500 response. -/
def runEndpoint {α : Type} (r : Except String α) : HttpResult α :=
  match r with
  | Except.ok a => HttpResult.ok a
  | Except.error e => HttpResult.error 500 e

/-- Record `main.EventCard`: the public projection returned by `/api/events`. -/
structure EventCard where
  id : String
  title : String
  subtitle : Option String := none
  banner_url : Option String := none
  start_at : Int
  end_at : Int
  status : String
  categories : List String := []
deriving DecidableEq

/-- The Mongo filter `{end_at: {$gte: now}}` on one `saleevent` document:
a document matches when the field is present and `≥ now` (a missing field
never matches `$gte`). -/
def filterEndAtGte (now : Int) (d : SaleEventDoc) : Bool :=
  match d.end_at with
  | some t => decide (now ≤ t)
  | none => false

/-- The projection body of `list_events`: `d.get` with the defaults the
handler supplies for each missing field. -/
def projectEventCard (now : Int) (d : SaleEventDoc) : EventCard :=
  { id := toString d._id,
    title := d.title.getD "",
    subtitle := d.subtitle,
    banner_url := d.banner_url,
    start_at := d.start_at.getD now,
    end_at := d.end_at.getD now,
    status := d.status.getD "scheduled",
    categories := d.categories.getD [] }

/-- Endpoint `GET /api/events` (`main.list_events`): query `saleevent` with
`{end_at: {$gte: now}}`, limit 50, project each document to a card. -/
def list_events (db? : Option DB) (now : Int) :
    Except String (List EventCard) :=
  (get_documents db? DB.saleevent (filterEndAtGte now) 50).map
    (List.map (projectEventCard now))

/-- Record `main.SubscribePayload` after validation and defaulting. -/
structure SubscribePayload where
  email : String
  first_name : Option String := none
  sale_event_id : Option String := none
  source : Option String := some "landing"
  accepted_marketing : Bool := true
deriving DecidableEq

/-- A raw `/api/subscribe` request body: an outer `none` means the field is
omitted from the JSON object (so the declared default applies). -/
structure RawSubscribePayload where
  email : String
  first_name : Option (Option String) := none
  sale_event_id : Option (Option String) := none
  source : Option (Option String) := none
  accepted_marketing : Option Bool := none
deriving DecidableEq

/-- Parsing and validation by FastAPI of the request body against
`SubscribePayload`: reject a malformed email, otherwise apply the declared
defaults to omitted fields. -/
def parseSubscribePayload (raw : RawSubscribePayload) :
    Except String SubscribePayload :=
  if isValidEmail raw.email then
    Except.ok { email := raw.email,
                first_name := raw.first_name.getD none,
                sale_event_id := raw.sale_event_id.getD none,
                source := raw.source.getD (some "landing"),
                accepted_marketing := raw.accepted_marketing.getD true }
  else Except.error "value is not a valid email address"

/-- The call `Subscriber(**payload.model_dump())`: the record is rebuilt
field by field from the payload. -/
def Subscriber.ofPayload (p : SubscribePayload) : Subscriber :=
  { email := p.email, first_name := p.first_name,
    sale_event_id := p.sale_event_id, source := p.source,
    accepted_marketing := p.accepted_marketing }

/-- The response of `POST /api/subscribe`: either the object
`(ok: True, id: inserted_id)` built by the handler or an `HTTPException`. -/
inductive SubscribeResponse where
  | success (ok : Bool) (id : String)
  | httpError (status : Nat) (detail : String)
deriving DecidableEq

/-- The `try/except` body of `subscribe` over the outcome of the insert:
on success return `{ok: True, id}`, on exception re-raise it as
`HTTPException(status_code=500, detail=str(e))`. -/
def subscribeHandleInsert (r : Except String String) : SubscribeResponse :=
  match r with
  | Except.ok iid => SubscribeResponse.success true iid
  | Except.error e => SubscribeResponse.httpError 500 e

/-- Endpoint `POST /api/subscribe` (`main.subscribe`): build the `Subscriber`,
insert it, and answer per the insert outcome. Returns the response with
the resulting database handle. -/
def subscribe (db? : Option DB) (payload : SubscribePayload) :
    SubscribeResponse × Option DB :=
  let sub := Subscriber.ofPayload payload
  match create_document db? sub with
  | Except.ok (iid, db') => (subscribeHandleInsert (Except.ok iid), some db')
  | Except.error e => (subscribeHandleInsert (Except.error e), db?)

/-- The full request pipeline for `POST /api/subscribe`: FastAPI validates
the body first (a malformed body is rejected with a 422 and the handler
never runs), then the handler executes. -/
def handleSubscribeRequest (db? : Option DB) (raw : RawSubscribePayload) :
    SubscribeResponse × Option DB :=
  match parseSubscribePayload raw with
  | Except.error msg => (SubscribeResponse.httpError 422 msg, db?)
  | Except.ok payload => subscribe db? payload

/-- Record `main.ProductCard`: the public projection returned by
`/api/events/(event_id)/products`. -/
structure ProductCard where
  id : String
  title : String
  price_original : Rat
  price_sale : Rat
  image : Option String := none
  stock : Int
deriving DecidableEq

/-- The projection body of `list_event_products`; its `image` field is
`(d.get("images") or [None])[0]`: the head of the stored list when the
list is present and non-empty (a missing or empty list is falsy), `None`
otherwise. -/
def projectProductCard (d : SaleProductDoc) : ProductCard :=
  { id := toString d._id,
    title := d.title.getD "",
    price_original := d.price_original.getD 0,
    price_sale := d.price_sale.getD 0,
    image := match d.images with
             | some (x :: _) => some x
             | _ => none,
    stock := d.stock.getD 0 }

/-- The Mongo filter `{sale_event_id: event_id}` on one `saleproduct`
document: the field is present and equals the requested id. -/
def filterSaleEventId (eventId : String) (d : SaleProductDoc) : Bool :=
  decide (d.sale_event_id = some eventId)

/-- Endpoint `GET /api/events/(event_id)/products` (`main.list_event_products`):
query `saleproduct` with `{sale_event_id: event_id}`, limit 200, project
each document to a card. -/
def list_event_products (db? : Option DB) (eventId : String) :
    Except String (List ProductCard) :=
  (get_documents db? DB.saleproduct (filterSaleEventId eventId) 200).map
    (List.map projectProductCard)

/-- The `/test` diagnostic response object. -/
structure TestResponse where
  backend : String
  database : String
  database_url : String
  database_name : String
  connection_status : String
  collections : List String
deriving DecidableEq

/-- The call `db.list_collection_names()`: the collections of the modelled
database. The modelled accessor is total, so the inner `except` branch of
the handler (driver error while listing) is unreachable here. -/
def list_collection_names (_db : DB) : List String :=
  ["saleevent", "saleproduct", "subscriber"]

/-- Endpoint `GET /test` (`main.test_database`): a diagnostic probe. With no
database handle it keeps the degraded defaults and reports the database
as available but not initialized; with a handle it reports the
connection and up to 20 collection names. `databaseUrlSet` and
`databaseName` model the `DATABASE_URL` / `DATABASE_NAME` environment. -/
def test_database (db? : Option DB) (databaseUrlSet : Bool)
    (databaseName : Option String) : TestResponse :=
  match db? with
  | some db =>
      { backend := "✅ Running",
        database := "✅ Connected & Working",
        database_url := if databaseUrlSet then "✅ Set" else "❌ Not Set",
        database_name := databaseName.getD "Unknown",
        connection_status := "Connected",
        collections := (list_collection_names db).take 20 }
  | none =>
      { backend := "✅ Running",
        database := "⚠️ Available but not initialized",
        database_url := "❌ Not Set",
        database_name := "❌ Not Set",
        connection_status := "Not Connected",
        collections := [] }

/-! ## Concrete example data (used by witnesses) -/

/-- A stored event whose end timestamp is in the past of `now = 10`. -/
def evPast : SaleEventDoc := { _id := 1, end_at := some 5 }

/-- A stored event whose end timestamp is in the future of `now = 10`. -/
def evFuture : SaleEventDoc := { _id := 2, end_at := some 100 }

/-- A stored product of event `ev1` with two images. -/
def prodEx : SaleProductDoc :=
  { _id := 3, sale_event_id := some "ev1", images := some ["img1", "img2"] }

/-- A stored product with no `images` field. -/
def prodNoImg : SaleProductDoc := { _id := 4, sale_event_id := some "ev1" }

/-- A small concrete database. -/
def dbEx : DB := { saleevent := [evPast, evFuture], saleproduct := [prodEx, prodNoImg] }

/-- A driver exception message longer than every truncation bound
appearing in `main.py` (80 and 120). -/
def longDriverMessage : String := String.mk (List.replicate 200 'x')

/-- Valid raw field values for a `SaleProduct`. -/
def prodInputEx : SaleProductInput :=
  { sale_event_id := "ev1", title := "Tee", price_original := 10,
    price_sale := 5, stock := 3 }

/-- The validated record `validateSaleProduct` yields on `prodInputEx`. -/
def prodValidEx : SaleProduct :=
  { sale_event_id := "ev1", title := "Tee", price_original := 10,
    price_sale := 5, stock := 3 }

/-- Raw reservation fields with an out-of-bounds quantity. -/
def resInputBad : ReservationInput :=
  { sale_event_id := "ev1", product_id := "p1", email := "a@b.com",
    quantity := 11 }

/-- A stored event document with every optional field missing. -/
def emptyEventDoc : SaleEventDoc := { _id := 9 }

/-! ## General lemmas about the embedding -/

theorem objectIdString_length (n : Nat) : (objectIdString n).length = 24 := by
  simp [objectIdString, String.length]

theorem objectIdString_length_pos (n : Nat) : 0 < (objectIdString n).length := by
  rw [objectIdString_length]; omega

/-! ## Claims -/

/-- C1: for every valid subscribe payload, when the insert into the
subscriber collection succeeds (the database handle is present), the
`POST /api/subscribe` handler returns `ok: true` together with the
stringified inserted id, which is a non-empty string. -/
theorem subscribe_success_ok_and_nonempty_id (db : DB) (p : SubscribePayload) :
    subscribe (some db) p =
      (SubscribeResponse.success true (objectIdString db.next_id),
       some { db with subscriber := db.subscriber ++ [Subscriber.ofPayload p],
                      next_id := db.next_id + 1 }) ∧
    0 < (objectIdString db.next_id).length :=
  ⟨rfl, objectIdString_length_pos db.next_id⟩

/-- Witness for C1 at a concrete database and payload. -/
theorem subscribe_success_ok_and_nonempty_id_witness :
    subscribe (some dbEx) { email := "a@b.com" } =
      (SubscribeResponse.success true (objectIdString dbEx.next_id),
       some { dbEx with
                subscriber := dbEx.subscriber ++
                  [Subscriber.ofPayload { email := "a@b.com" }],
                next_id := dbEx.next_id + 1 }) ∧
    0 < (objectIdString dbEx.next_id).length :=
  subscribe_success_ok_and_nonempty_id dbEx { email := "a@b.com" }

/-- C4: the `image` field of a projected product card is the first element
of the stored `images` list when that list is non-empty, and `none` when
the list is empty or missing. -/
theorem product_card_image_first (d : SaleProductDoc) :
    (∀ x xs, d.images = some (x :: xs) →
        (projectProductCard d).image = some x) ∧
    ((d.images = some [] ∨ d.images = none) →
        (projectProductCard d).image = none) := by
  constructor
  · intro x xs h
    simp [projectProductCard, h]
  · rintro (h | h) <;> simp [projectProductCard, h]

/-- Witness for C4: a product with images and a product without. -/
theorem product_card_image_first_witness :
    (projectProductCard prodEx).image = some "img1" ∧
    (projectProductCard prodNoImg).image = none :=
  ⟨(product_card_image_first prodEx).1 "img1" ["img2"] rfl,
   (product_card_image_first prodNoImg).2 (Or.inr rfl)⟩

/-- C5: a subscribe payload with a malformed email is rejected with a
validation (422) error and the database state is unchanged — the handler
(and hence the insert) never runs. -/
theorem subscribe_invalid_email_rejected (db? : Option DB)
    (raw : RawSubscribePayload) (h : isValidEmail raw.email = false) :
    handleSubscribeRequest db? raw =
      (SubscribeResponse.httpError 422 "value is not a valid email address",
       db?) := by
  simp [handleSubscribeRequest, parseSubscribePayload, h]

/-- Witness for C5 at a concrete malformed email. -/
theorem subscribe_invalid_email_rejected_witness :
    isValidEmail "not-an-email" = false ∧
    handleSubscribeRequest (some dbEx) { email := "not-an-email" } =
      (SubscribeResponse.httpError 422 "value is not a valid email address",
       some dbEx) :=
  ⟨by decide,
   subscribe_invalid_email_rejected (some dbEx) { email := "not-an-email" }
     (by decide)⟩

/-- C6 (counterexample): the claim says the 500 detail is the exception
message truncated to a bounded length. The handler re-raises
`HTTPException(status_code=500, detail=str(e))` with no truncation: a
200-character driver message is returned whole, exceeding both truncation
bounds (80 and 120) appearing elsewhere in `main.py`. -/
theorem subscribe_insert_error_detail_untruncated :
    subscribeHandleInsert (Except.error longDriverMessage) =
      SubscribeResponse.httpError 500 longDriverMessage ∧
    longDriverMessage.length = 200 :=
  ⟨rfl, by
    have h : longDriverMessage.length = (List.replicate 200 'x').length := rfl
    rw [h, List.length_replicate]⟩

/-- C6 (amended): every exception raised during the subscriber insert is
caught and surfaced as a 500 server error whose detail is the full
exception message (no truncation is applied). -/
theorem subscribe_insert_error_caught (e : String) :
    subscribeHandleInsert (Except.error e) =
      SubscribeResponse.httpError 500 e := rfl

/-- Witness for the amended C6 at a concrete message. -/
theorem subscribe_insert_error_caught_witness :
    subscribeHandleInsert (Except.error "boom") =
      SubscribeResponse.httpError 500 "boom" :=
  subscribe_insert_error_caught "boom"

/-- C7: with the database handle absent, `GET /test` returns a normal
diagnostic response reporting the database as not initialized, while the
three data endpoints surface a 500 server error instead of crashing. -/
theorem db_absent_degraded_responses (u : Bool) (nm : Option String)
    (now : Int) (eid : String) (p : SubscribePayload) :
    test_database none u nm =
      { backend := "✅ Running",
        database := "⚠️ Available but not initialized",
        database_url := "❌ Not Set", database_name := "❌ Not Set",
        connection_status := "Not Connected", collections := [] } ∧
    runEndpoint (list_events none now) =
      HttpResult.error 500 "Database not available" ∧
    runEndpoint (list_event_products none eid) =
      HttpResult.error 500 "Database not available" ∧
    subscribe none p =
      (SubscribeResponse.httpError 500 "Database not available", none) :=
  ⟨rfl, rfl, rfl, rfl⟩

/-- Witness for C7 at concrete arguments. -/
theorem db_absent_degraded_responses_witness :
    test_database none false none =
      { backend := "✅ Running",
        database := "⚠️ Available but not initialized",
        database_url := "❌ Not Set", database_name := "❌ Not Set",
        connection_status := "Not Connected", collections := [] } ∧
    runEndpoint (list_events none 10) =
      HttpResult.error 500 "Database not available" ∧
    runEndpoint (list_event_products none "ev1") =
      HttpResult.error 500 "Database not available" ∧
    subscribe none { email := "a@b.com" } =
      (SubscribeResponse.httpError 500 "Database not available", none) :=
  db_absent_degraded_responses false none 10 "ev1" { email := "a@b.com" }

/-- C10: the `/api/events` projection substitutes defaults for missing
fields of a stored document instead of failing: status defaults to
"scheduled", the timestamps to the current time, the title to the empty
string and the categories to the empty list. -/
theorem event_card_defaults (d : SaleEventDoc) (now : Int) :
    (d.status = none → (projectEventCard now d).status = "scheduled") ∧
    (d.start_at = none → (projectEventCard now d).start_at = now) ∧
    (d.end_at = none → (projectEventCard now d).end_at = now) ∧
    (d.title = none → (projectEventCard now d).title = "") ∧
    (d.categories = none → (projectEventCard now d).categories = []) := by
  refine ⟨?_, ?_, ?_, ?_, ?_⟩ <;> intro h <;> simp [projectEventCard, h]

/-- Witness for C10 at a document with every field missing. -/
theorem event_card_defaults_witness :
    (projectEventCard 7 emptyEventDoc).status = "scheduled" ∧
    (projectEventCard 7 emptyEventDoc).start_at = 7 ∧
    (projectEventCard 7 emptyEventDoc).end_at = 7 ∧
    (projectEventCard 7 emptyEventDoc).title = "" ∧
    (projectEventCard 7 emptyEventDoc).categories = [] :=
  ⟨(event_card_defaults emptyEventDoc 7).1 rfl,
   (event_card_defaults emptyEventDoc 7).2.1 rfl,
   (event_card_defaults emptyEventDoc 7).2.2.1 rfl,
   (event_card_defaults emptyEventDoc 7).2.2.2.1 rfl,
   (event_card_defaults emptyEventDoc 7).2.2.2.2 rfl⟩

/-- C2: `GET /api/events` returns at most 50 cards; a stored event whose
end timestamp is strictly before `now` is never among them, and a stored
event with end timestamp at or after `now` is among them whenever the
matching events fit under the 50-result cap. -/
theorem list_events_filters_and_caps (db : DB) (now : Int) :
    ∃ cards, list_events (some db) now = Except.ok cards ∧
      cards.length ≤ 50 ∧
      (∀ d ∈ db.saleevent, ∀ t, d.end_at = some t → t < now →
          projectEventCard now d ∉ cards) ∧
      (∀ d ∈ db.saleevent, ∀ t, d.end_at = some t → now ≤ t →
          (db.saleevent.filter (filterEndAtGte now)).length ≤ 50 →
          projectEventCard now d ∈ cards) := by
  refine ⟨((db.saleevent.filter (filterEndAtGte now)).take 50).map
            (projectEventCard now), rfl, ?_, ?_, ?_⟩
  · simp [List.length_take]
  · intro d _hd t ht hlt hmem
    rcases List.mem_map.mp hmem with ⟨d2, hd2, heq⟩
    have hfil := List.mem_filter.mp (List.take_subset _ _ hd2)
    have hf2 := hfil.2
    unfold filterEndAtGte at hf2
    rcases he : d2.end_at with _ | t2
    · rw [he] at hf2; exact Bool.false_ne_true hf2
    · rw [he] at hf2
      have hle : now ≤ t2 := of_decide_eq_true hf2
      have hend2 : (projectEventCard now d2).end_at = t2 := by
        simp [projectEventCard, he]
      have hend : (projectEventCard now d).end_at = t := by
        simp [projectEventCard, ht]
      rw [heq, hend] at hend2
      omega
  · intro d hd t ht hnl hlen
    have hf : filterEndAtGte now d = true := by
      simp [filterEndAtGte, ht, hnl]
    rw [List.take_of_length_le hlen]
    exact List.mem_map_of_mem _ (List.mem_filter.mpr ⟨hd, hf⟩)

/-- Witness for C2 on a concrete database at `now = 10`: the past event is
excluded, the future event included, under the cap. -/
theorem list_events_filters_and_caps_witness :
    ∃ cards, list_events (some dbEx) 10 = Except.ok cards ∧
      cards.length ≤ 50 ∧
      projectEventCard 10 evPast ∉ cards ∧
      projectEventCard 10 evFuture ∈ cards := by
  obtain ⟨cards, h1, h2, h3, h4⟩ := list_events_filters_and_caps dbEx 10
  refine ⟨cards, h1, h2, ?_, ?_⟩
  · exact h3 evPast (by simp [dbEx]) 5 rfl (by decide)
  · exact h4 evFuture (by simp [dbEx]) 100 rfl (by decide) (by decide)

/-- C3: every product card returned by `GET /api/events/(event_id)/products`
is the projection of a stored product whose `sale_event_id` equals the
requested id, and at most 200 cards are returned. -/
theorem list_event_products_match_and_cap (db : DB) (eid : String) :
    ∃ items, list_event_products (some db) eid = Except.ok items ∧
      items.length ≤ 200 ∧
      ∀ c ∈ items, ∃ d, d ∈ db.saleproduct ∧ d.sale_event_id = some eid ∧
        c = projectProductCard d := by
  refine ⟨((db.saleproduct.filter (filterSaleEventId eid)).take 200).map
            projectProductCard, rfl, ?_, ?_⟩
  · simp [List.length_take]
  · intro c hc
    rcases List.mem_map.mp hc with ⟨d, hd, heq⟩
    have hfil := List.mem_filter.mp (List.take_subset _ _ hd)
    have hf2 := hfil.2
    unfold filterSaleEventId at hf2
    exact ⟨d, hfil.1, of_decide_eq_true hf2, heq.symm⟩

/-- Witness for C3 on the concrete database. -/
theorem list_event_products_match_and_cap_witness :
    ∃ items, list_event_products (some dbEx) "ev1" = Except.ok items ∧
      items.length ≤ 200 ∧
      ∀ c ∈ items, ∃ d, d ∈ dbEx.saleproduct ∧
        d.sale_event_id = some "ev1" ∧ c = projectProductCard d :=
  list_event_products_match_and_cap dbEx "ev1"

/-- C8: a subscribe payload carrying only a (valid) email is accepted, and
the `Subscriber` record constructed and appended to the subscriber
collection has the declared defaults applied:
`accepted_marketing = true` and `source = "landing"`. -/
theorem subscribe_defaults_applied (db : DB) (email : String)
    (h : isValidEmail email = true) :
    handleSubscribeRequest (some db) { email := email } =
      (SubscribeResponse.success true (objectIdString db.next_id),
       some { db with
                subscriber := db.subscriber ++
                  [{ email := email, first_name := none,
                     sale_event_id := none, source := some "landing",
                     accepted_marketing := true }],
                next_id := db.next_id + 1 }) := by
  simp [handleSubscribeRequest, parseSubscribePayload, h, subscribe,
        create_document, Subscriber.ofPayload, subscribeHandleInsert]

/-- Witness for C8 at a concrete valid email. -/
theorem subscribe_defaults_applied_witness :
    isValidEmail "a@b.com" = true ∧
    handleSubscribeRequest (some dbEx) { email := "a@b.com" } =
      (SubscribeResponse.success true (objectIdString dbEx.next_id),
       some { dbEx with
                subscriber := dbEx.subscriber ++
                  [{ email := "a@b.com", first_name := none,
                     sale_event_id := none, source := some "landing",
                     accepted_marketing := true }],
                next_id := dbEx.next_id + 1 }) :=
  ⟨by decide, subscribe_defaults_applied dbEx "a@b.com" (by decide)⟩

/-- C9: validation enforces the declared numeric bounds at the boundary:
an accepted `SaleProduct` has non-negative original price, sale price and
stock, and a record violating a bound is rejected; an accepted
`Reservation` has quantity between 1 and 10 inclusive, and a record
violating the bound is rejected. -/
theorem schema_bounds_enforced (ip : SaleProductInput) (ir : ReservationInput) :
    (∀ p, validateSaleProduct ip = some p →
        0 ≤ p.price_original ∧ 0 ≤ p.price_sale ∧ 0 ≤ p.stock) ∧
    (¬ (0 ≤ ip.price_original ∧ 0 ≤ ip.price_sale ∧ 0 ≤ ip.stock) →
        validateSaleProduct ip = none) ∧
    (∀ r, validateReservation ir = some r →
        1 ≤ r.quantity ∧ r.quantity ≤ 10) ∧
    (¬ (1 ≤ ir.quantity ∧ ir.quantity ≤ 10) →
        validateReservation ir = none) := by
  refine ⟨?_, ?_, ?_, ?_⟩
  · intro p hp
    by_cases hb : 0 ≤ ip.price_original ∧ 0 ≤ ip.price_sale ∧ 0 ≤ ip.stock
    · unfold validateSaleProduct at hp
      rw [if_pos hb] at hp
      injection hp with hpe
      subst hpe
      exact ⟨hb.1, hb.2.1, hb.2.2⟩
    · unfold validateSaleProduct at hp
      rw [if_neg hb] at hp
      exact Option.noConfusion hp
  · intro hb
    unfold validateSaleProduct
    rw [if_neg hb]
  · intro r hr
    by_cases hb : isValidEmail ir.email = true ∧ 1 ≤ ir.quantity ∧
        ir.quantity ≤ 10
    · unfold validateReservation at hr
      rw [if_pos hb] at hr
      injection hr with hre
      subst hre
      exact ⟨hb.2.1, hb.2.2⟩
    · unfold validateReservation at hr
      rw [if_neg hb] at hr
      exact Option.noConfusion hr
  · intro hb
    unfold validateReservation
    rw [if_neg (fun hc => hb ⟨hc.2.1, hc.2.2⟩)]

/-- Witness for C9: a product within the bounds validates to a record
satisfying them, and a reservation asking for 11 items is rejected. -/
theorem schema_bounds_enforced_witness :
    (0 ≤ prodValidEx.price_original ∧ 0 ≤ prodValidEx.price_sale ∧
      0 ≤ prodValidEx.stock) ∧
    validateReservation resInputBad = none :=
  ⟨(schema_bounds_enforced prodInputEx resInputBad).1 prodValidEx (by decide),
   (schema_bounds_enforced prodInputEx resInputBad).2.2.2 (by decide)⟩

end RunFlash
